import Mathlib

/-!
Verification development for the `plaque_assay` potency-estimation engine.

Shallow embedding of `plaque_assay/stats.py`, `plaque_assay/utils.py`,
`plaque_assay/sample.py` and `plaque_assay/failure.py`.

Modelling conventions:
* Python floats are modelled as exact rationals (`ℚ`); a float that may be
  NaN is modelled as `Option ℚ` with `none` standing for NaN (comparisons
  against NaN are `False` in Python, matched explicitly below).
* A dilution series row is a `(Dilution, Percentage Infected)` pair; a raw
  row whose percentage may be missing (NaN, dropped by `df.dropna()`) has an
  `Option ℚ` second component.
* pandas exceptions are modelled with `Except PdErr`: `KeyError` from a
  missing label, the `ValueError` raised when a duplicated-label lookup
  produces a `Series` that is then forced to `bool` by `and`/`if`
  (`ambiguousTruth`), the `ValueError` of `min`/`argmin` on an empty
  sequence, the `AssertionError` of `model_mse`, and the `TypeError` of a
  bad keyword call.
* `scipy.optimize.curve_fit` and the evaluation of the fitted dose-response
  curve on the interpolation grid are external numerics; they enter
  `calc_model_results` as an oracle argument `FitOutcome` carrying the
  fitted parameters and the sampled curve values, and the log-spaced
  interpolation grid `np.logspace(...)` enters as a list of positive
  rationals.
-/

/-- Categorical outcomes: the domain of `utils.RESULT_TO_INT`
(`plaque_assay/utils.py`, lines 13-18). -/
inductive Res
  | failedToFit
  | noInhibition
  | weakInhibition
  | completeInhibition
deriving DecidableEq

/-- `utils.RESULT_TO_INT` / `utils.result_to_int` (utils.py lines 13-35):
"failed to fit model" = -999, "no inhibition" = -600,
"weak inhibition" = -400, "complete inhibition" = -200. -/
def result_to_int : Res → ℤ
  | .failedToFit => -999
  | .noInhibition => -600
  | .weakInhibition => -400
  | .completeInhibition => -200

/-- `utils.INT_TO_RESULT` / `utils.int_to_result` (utils.py lines 21, 38-49),
as the partial inverse dictionary, values as display strings. -/
def int_to_result (z : ℤ) : Option String :=
  if z = -999 then some "failed to fit model"
  else if z = -600 then some "no inhibition"
  else if z = -400 then some "weak inhibition"
  else if z = -200 then some "complete inhibition"
  else none

/-- Exceptions of the modelled pandas/numpy/Python fragment. -/
inductive PdErr
  | keyError
  | ambiguousTruth
  | valueError
  | assertionError
  | typeError
deriving DecidableEq

deriving instance DecidableEq for Except

/-- A clean observation: (Dilution, Percentage Infected), both numeric. -/
abbrev Obs := ℚ × ℚ

/-- A raw observation whose percentage-infected may be NaN (`none`). -/
abbrev ObsN := ℚ × Option ℚ

/-- `df.dropna()`: drop rows with a missing percentage-infected value. -/
def dropna (l : List ObsN) : List Obs :=
  l.filterMap (fun p => p.2.map (fun v => (p.1, v)))

/-- Stable insertion step for sorting observations by dilution. -/
def insertByDil (a : Obs) : List Obs → List Obs
  | [] => [a]
  | b :: bs => if a.1 ≤ b.1 then a :: b :: bs else b :: insertByDil a bs

/-- `df.sort_values("Dilution")`: stable ascending sort by dilution. -/
def sortByDil (l : List Obs) : List Obs := l.foldr insertByDil []

/-- Insertion step for sorting rationals ascending. -/
def insertQ (a : ℚ) : List ℚ → List ℚ
  | [] => [a]
  | b :: bs => if a ≤ b then a :: b :: bs else b :: insertQ a bs

/-- Ascending sort on rationals (used for group keys and for medians). -/
def sortQasc (l : List ℚ) : List ℚ := l.foldr insertQ []

/-- First-occurrence deduplication, with an accumulator of seen values. -/
def dedupAux : List ℚ → List ℚ → List ℚ
  | [], _ => []
  | a :: as, seen =>
      if a ∈ seen then dedupAux as seen else a :: dedupAux as (a :: seen)

/-- Distinct values, keeping first occurrences. -/
def dedupQ (l : List ℚ) : List ℚ := dedupAux l []

/-- The distinct dilution values of a series, ascending
(the group keys of `group.groupby("Dilution")`). -/
def dilutionLevels (g : List Obs) : List ℚ := sortQasc (dedupQ (g.map Prod.fst))

/-- Replicate-averaged percentage infected at one dilution level:
`group.groupby("Dilution")["Percentage Infected"].mean()` for one key. -/
def levelMean (g : List Obs) (d : ℚ) : ℚ :=
  let vs := (g.filter (fun o => o.1 = d)).map Prod.snd
  vs.sum / (vs.length : ℚ)

/-- `astype(int)`: C-style truncation towards zero. -/
def truncQ (q : ℚ) : ℤ := if 0 ≤ q then ⌊q⌋ else ⌈q⌉

/-- Python `round(n, -1)` on an integer: round to the nearest multiple of 10,
ties to the even multiple (banker's rounding). -/
def pyRound10 (n : ℤ) : ℤ :=
  let q := n / 10
  let r := n % 10
  if r < 5 then 10 * q
  else if 5 < r then 10 * (q + 1)
  else if q % 2 = 0 then 10 * q else 10 * (q + 1)

/-- Index transformation of `calc_heuristics_dilutions` (stats.py lines
194-198): `avg.index = 1/avg.index`, `astype(int)`, `round(i, -1)`. -/
def dilKey (d : ℚ) : ℤ := pyRound10 (truncQ (1 / d))

/-- One entry of the averaged series `avg`: integer reciprocal-dilution key
(rounded to the nearest 10) and the replicate-averaged percentage infected. -/
structure DilLevel where
  key : ℤ
  mean : ℚ
deriving DecidableEq

/-- The averaged series `avg` of `calc_heuristics_dilutions`, one entry per
distinct dilution value, ascending by dilution. -/
def buildAvg (g : List Obs) : List DilLevel :=
  (dilutionLevels g).map (fun d => ⟨dilKey d, levelMean g d⟩)

/-- Modelled from the spec: `consts.DILUTION_1`, the least-dilute standard
level key (1:40).  The `DILUTION_*` constants are used by `stats.py` but are
absent from the provided `plaque_assay/consts.py` (which has
`plate_mapping = {1: 1/40, 2: 1/160, 3: 1/640, 4: 1/2560}`); the spec's
glossary ("a dilution value of 0.025 corresponds to a 1:40 fold-dilution")
and rule text fix the four reciprocal-dilution keys. -/
def DILUTION_1 : ℤ := 40

/-- Modelled from the spec: `consts.DILUTION_2` (1:160); see `DILUTION_1`. -/
def DILUTION_2 : ℤ := 160

/-- Modelled from the spec: `consts.DILUTION_3` (1:640); see `DILUTION_1`. -/
def DILUTION_3 : ℤ := 640

/-- Modelled from the spec: `consts.DILUTION_4`, the most-dilute standard
level key (1:2560); see `DILUTION_1`. -/
def DILUTION_4 : ℤ := 2560

/-- `avg[k]` followed by forcing the looked-up value to a scalar comparison:
no entry with label `k` raises `KeyError`; with a duplicated label the lookup
yields a `Series`, and the enclosing `and`/`if` then raises the pandas
"truth value of a Series is ambiguous" `ValueError` (`ambiguousTruth`). -/
def lookupKey (avg : List DilLevel) (k : ℤ) : Except PdErr ℚ :=
  match avg.filter (fun l => l.key = k) with
  | [] => .error .keyError
  | [l] => .ok l.mean
  | _ :: _ :: _ => .error .ambiguousTruth

/-- Python `avg[k₁] cmp₁ and avg[k₂] cmp₂` with short-circuit evaluation:
the second lookup happens only when the first comparison is truthy. -/
def condBoth (avg : List DilLevel) (k₁ k₂ : ℤ) (f g : ℚ → Bool) :
    Except PdErr Bool :=
  match lookupKey avg k₁ with
  | .error e => .error e
  | .ok v₁ =>
      if f v₁ then
        match lookupKey avg k₂ with
        | .error e => .error e
        | .ok v₂ => .ok (g v₂)
      else .ok false

/-- `try: ... except KeyError: handler` — only `KeyError` is caught. -/
def tryKey {α : Type} (m : Except PdErr α) (h : Except PdErr α) :
    Except PdErr α :=
  match m with
  | .error .keyError => h
  | other => other

/-- The nested `try/except KeyError` shape shared by rules 2 and 3 of
`calc_heuristics_dilutions` (stats.py lines 202-219 and 221-239): try the
condition on `(k₁, k₂)`; on `KeyError` retry on the fallback pair
`(k₃, k₄)`; on a second `KeyError` overwrite the result with
"failed to fit model". -/
def fallbackStep (avg : List DilLevel) (k₁ k₂ k₃ k₄ : ℤ) (f g : ℚ → Bool)
    (res : Res) (r : Option Res) : Except PdErr (Option Res) :=
  tryKey
    ((condBoth avg k₁ k₂ f g).map (fun b => if b then some res else r))
    (tryKey
      ((condBoth avg k₃ k₄ f g).map (fun b => if b then some res else r))
      (.ok (some Res.failedToFit)))

/-- Rule 2 of `calc_heuristics_dilutions` (stats.py lines 202-219): the two
most-dilute levels both ≤ threshold ⇒ "complete inhibition", with the
one-level fallback and the "failed to fit model" double-KeyError fallback. -/
def rule2step (avg : List DilLevel) (t : ℚ) (r : Option Res) :
    Except PdErr (Option Res) :=
  fallbackStep avg DILUTION_4 DILUTION_3 DILUTION_3 DILUTION_2
    (fun v => decide (v ≤ t)) (fun v => decide (v ≤ t))
    Res.completeInhibition r

/-- Rule 3 of `calc_heuristics_dilutions` (stats.py lines 221-239): the
least-dilute level strictly between threshold and weak_threshold ⇒
"weak inhibition", with the same fallback structure (both comparisons are
lookups of the same level, mirroring the source's two subscripts). -/
def rule3step (avg : List DilLevel) (t w : ℚ) (r : Option Res) :
    Except PdErr (Option Res) :=
  fallbackStep avg DILUTION_1 DILUTION_1 DILUTION_2 DILUTION_2
    (fun v => decide (t < v)) (fun v => decide (v < w))
    Res.weakInhibition r

/-- `calc_heuristics_dilutions` on the already-averaged series (stats.py
lines 192-246): the rules run in order, later rules overwriting `result`. -/
def calcHeuristicDilutionsAvg (avg : List DilLevel) (t w : ℚ) :
    Except PdErr (Option Res) :=
  let r₀ : Option Res :=
    if avg.all (fun l => decide (l.mean ≤ t)) then some Res.completeInhibition
    else none
  match rule2step avg t r₀ with
  | .error e => .error e
  | .ok r₁ =>
      match rule3step avg t w r₁ with
      | .error e => .error e
      | .ok r₂ =>
          .ok (if avg.all (fun l => decide (w < l.mean)) then
                some Res.noInhibition
              else r₂)

/-- `stats.calc_heuristics_dilutions` (stats.py lines 176-246): group the
series by dilution, average replicates, re-key by rounded reciprocal
dilution, run the heuristic rules, and convert the result string to its
sentinel integer. -/
def calc_heuristics_dilutions (g : List Obs) (t w : ℚ) :
    Except PdErr (Option ℤ) :=
  (calcHeuristicDilutionsAvg (buildAvg g) t w).map (Option.map result_to_int)

/-- The values of a window with NaNs removed (`np.isnan` masking). -/
def nanVals (wl : List (Option ℚ)) : List ℚ := wl.filterMap id

/-- `np.nanmedian` on the non-NaN values: middle of the sorted list for odd
length, mean of the two middle values for even length (0 on empty, a value
the callers never use: all-NaN windows are skipped first). -/
def medianQ (l : List ℚ) : ℚ :=
  let s := sortQasc l
  let n := l.length
  if n % 2 = 1 then s.getD (n / 2) 0
  else (s.getD (n / 2 - 1) 0 + s.getD (n / 2) 0) / 2

/-- The slice `x[(i - k):(i + k + 1)]` (full-width for the loop's range). -/
def windowAt (x : List (Option ℚ)) (i k : ℕ) : List (Option ℚ) :=
  (x.drop (i - k)).take (2 * k + 1)

/-- The flagging test of one loop iteration of `hampel` (stats.py lines
412-417): skip all-NaN windows; otherwise flag when
`|x[i] - x0| > t0 * S0` with `x0` the NaN-ignoring window median and
`S0 = 1.4826 * nanmedian(|window - x0|)`.  A NaN `x[i]` compares `False`. -/
def hampelFlag (x : List (Option ℚ)) (k : ℕ) (t0 : ℚ) (i : ℕ) : Bool :=
  let vs := nanVals (windowAt x i k)
  if vs.isEmpty then false
  else
    let x0 := medianQ vs
    let S0 := (14826 : ℚ) / 10000 * medianQ (vs.map (fun v => |v - x0|))
    match x.getD i none with
    | none => false
    | some xi => decide (t0 * S0 < |xi - x0|)

/-- `stats.hampel` (stats.py lines 388-418): Hampel's outlier test.  The
source loop is `for i in range((k + 1), (n - k))`, i.e. the evaluated
centre indices are `k+1 ≤ i < n - k` (0-based), flagged indices appended in
increasing order. -/
def hampel (x : List (Option ℚ)) (k : ℕ) (t0 : ℚ) : List ℕ :=
  (List.range' (k + 1) (x.length - k - (k + 1))).filter (hampelFlag x k t0)

/-- Modelled from the spec: the outlier filter as §4.2 of the spec words it,
"For each interior index `i` in `[k, n-k)`", with the same window medians
and flagging rule as the source; it differs from `hampel` only in starting
the loop at `k` instead of `k + 1`. -/
def hampelSpec (x : List (Option ℚ)) (k : ℕ) (t0 : ℚ) : List ℕ :=
  (List.range' k (x.length - k - k)).filter (hampelFlag x k t0)

/-- One step of Python's builtin `min` over possibly-NaN values: `b` replaces
the current minimum only when `b < current` is `True`; any comparison with
NaN is `False`. -/
def minStep (cur xv : Option ℚ) : Option ℚ :=
  match xv, cur with
  | some a, some c => if a < c then some a else some c
  | _, _ => cur

/-- The value of Python `min(y)` on a nonempty sequence (left fold from the
first element); `[]` is never passed here (see `pyMinList`). -/
def pyMinVal (y : List (Option ℚ)) : Option ℚ :=
  match y with
  | [] => none
  | v :: vs => vs.foldl minStep v

/-- Python `min(y)`: `ValueError` on an empty sequence. -/
def pyMinList (y : List (Option ℚ)) : Except PdErr (Option ℚ) :=
  if y.isEmpty then .error .valueError else .ok (pyMinVal y)

/-- Index of the first occurrence of the minimum of a NaN-free list. -/
def argminVals (y : List ℚ) : ℕ :=
  (y.foldl
    (fun (acc : ℕ × ℕ × ℚ) v =>
      if v < acc.2.2 then (acc.2.1, acc.2.1 + 1, v)
      else (acc.1, acc.2.1 + 1, acc.2.2))
    (0, 0, y.headD 0)).1

/-- `np.argmin(y)`: with NaN present returns the index of the first NaN,
otherwise the index of the first occurrence of the minimum. -/
def pyArgmin (y : List (Option ℚ)) : ℕ :=
  match y.findIdx? Option.isNone with
  | some i => i
  | none => argminVals (y.filterMap id)

/-- `stats.calc_heuristics_curve` (stats.py lines 249-291): Hampel outliers
on the fitted curve ⇒ "failed to fit model"; then — with no `else`, so this
second rule can overwrite the first — if `min(y)` lies strictly between the
thresholds, "weak inhibition" when `argmin(y) > len(x) / 4` and
"failed to fit model" otherwise.  `x` enters only through `len(x)`.
`min(y)` on an empty curve raises `ValueError`. -/
def calc_heuristics_curve (x : List ℚ) (y : List (Option ℚ)) (t w : ℚ) :
    Except PdErr (Option ℤ) :=
  let outliers := hampel y 5 3
  let r₀ : Option Res :=
    if outliers.isEmpty then none else some Res.failedToFit
  match pyMinList y with
  | .error e => .error e
  | .ok m =>
      let r₁ : Option Res :=
        match m with
        | some mv =>
            if t < mv ∧ mv < w then
              if ((pyArgmin y : ℚ) > (x.length : ℚ) / 4) then
                some Res.weakInhibition
              else some Res.failedToFit
            else r₀
        | none => r₀
      .ok (r₁.map result_to_int)

/-- `stats.Intersect` (stats.py lines 20-23); `x`/`y` are `none` for the NaN
coordinates of the error case. -/
structure Intersect where
  x : Option ℚ
  y : Option ℚ
  error : Bool
deriving DecidableEq

/-- `np.sign` on a (non-NaN) float. -/
def signQ (v : ℚ) : ℚ := if 0 < v then 1 else if v < 0 then -1 else 0

/-- `np.sign(line - curve)` where `line` is the constant `t` over the
sampled axis `xs` (element-wise; NaN curve points give NaN sign). -/
def signLine (xs : List ℚ) (curve : List (Option ℚ)) (t : ℚ) :
    List (Option ℚ) :=
  List.zipWith (fun _ c => c.map (fun cv => signQ (t - cv))) xs curve

/-- Whether one entry of `np.diff` of the sign sequence is nonzero; a NaN
difference is nonzero for `np.argwhere`. -/
def diffNonzero (a b : Option ℚ) : Bool :=
  match a, b with
  | some p, some q => decide (q - p ≠ 0)
  | _, _ => true

/-- `np.argwhere(np.diff(np.sign(line - curve))).flatten()`: the indices at
which the sign of `line - curve` differs from the next sample. -/
def signChangeIdx (xs : List ℚ) (curve : List (Option ℚ)) (t : ℚ) : List ℕ :=
  let s := signLine xs curve t
  (List.range (s.length - 1)).filter
    (fun i => diffNonzero (s.getD i none) (s.getD (i + 1) none))

/-- `stats.intersect_between_curves` (stats.py lines 82-117), over the
already-sampled log-spaced axis `xs` (the source builds it with
`np.logspace(np.log10(x_min), np.log10(x_max), 10000)`; its 10000 points
are positive for positive bounds), and a curve of the same length: exactly
one sign-change index ⇒ that crossing, otherwise NaN coordinates and the
error flag. -/
def intersect_between_curves (xs : List ℚ) (curve : List (Option ℚ))
    (t : ℚ) : Intersect :=
  match signChangeIdx xs curve t with
  | [i] => ⟨some (xs.getD i 0), curve.getD i none, false⟩
  | _ => ⟨none, none, true⟩

/-- `stats.ModelParams` (stats.py lines 26-30). -/
structure ModelParams where
  top : ℚ
  bottom : ℚ
  ec50 : ℚ
  hill_slope : ℚ
deriving DecidableEq

/-- The data a successful `scipy.optimize.curve_fit` call contributes to
`calc_model_results`: the fitted parameters, the fitted curve sampled on
the interpolation grid (`dr_4(x_interpolated, *model_params)`, NaN
possible), and the fitted values at the observed dilutions
(`dr_4(x, *model_params)`). -/
structure FitSuccess where
  params : ModelParams
  yFitted : List (Option ℚ)
  yHat : List (Option ℚ)
deriving DecidableEq

/-- Oracle for the `scipy.optimize.curve_fit` call of `non_linear_model`:
either the `RuntimeError` of a failed optimisation or a successful fit. -/
inductive FitOutcome
  | fitError
  | fitted (fs : FitSuccess)
deriving DecidableEq

/-- `stats.ModelResults` (stats.py lines 33-37).  `mean_squared_error` is
`none` for Python `None`, `some none` for a NaN MSE, `some (some q)` for a
numeric MSE. -/
structure ModelResults where
  fit_method : String
  result : ℚ
  model_params : Option ModelParams
  mean_squared_error : Option (Option ℚ)
deriving DecidableEq

/-- `np.nanmean`: mean of the non-NaN entries, NaN (`none`) if there are
none. -/
def nanmean (l : List (Option ℚ)) : Option ℚ :=
  let vs := l.filterMap id
  if vs.isEmpty then none else some (vs.sum / (vs.length : ℚ))

/-- `stats.model_mse` (stats.py lines 156-173): asserts equal shapes, then
`np.nanmean((y_observed - y_fitted) ** 2)`. -/
def model_mse (y_observed y_fitted : List (Option ℚ)) :
    Except PdErr (Option ℚ) :=
  if y_observed.length = y_fitted.length then
    .ok (nanmean (List.zipWith
      (fun a b =>
        match a, b with
        | some p, some q => some ((p - q) ^ 2)
        | _, _ => none)
      y_observed y_fitted))
  else .error .assertionError

/-- The MSE clipping of `calc_model_results` (stats.py lines 341-343):
`if mean_squared_error > 99999: mean_squared_error = 99999`; a NaN MSE
compares `False` and is kept. -/
def clipMse (m : Option ℚ) : Option ℚ :=
  match m with
  | some q => if 99999 < q then some 99999 else some q
  | none => none

/-- `x.max()` of a nonempty numpy array (junk default on empty, which the
caller never hits: the model-fit path implies a nonempty series). -/
def listMaxQ (l : List ℚ) : ℚ := l.foldl max (l.headD 0)

/-- `x.min()` of a nonempty numpy array (same caveat as `listMaxQ`). -/
def listMinQ (l : List ℚ) : ℚ := l.foldl min (l.headD 0)

/-- `stats.recast_if_out_of_bounds_ic50` (stats.py lines 362-385): an IC50
below the lowest tested fold-dilution becomes "weak inhibition", one above
the highest becomes "complete inhibition". -/
def recast_if_out_of_bounds_ic50 (result : ℚ) (x : List ℚ) : ℚ :=
  let r₁ := if result < 1 / listMaxQ x then ((-400 : ℤ) : ℚ) else result
  if r₁ > 1 / listMinQ x then ((-200 : ℤ) : ℚ) else r₁

/-- `stats.calc_model_results` (stats.py lines 294-359): drop NaN rows, sort
by dilution, try the raw-data heuristic; otherwise fit (oracle `fit`),
compute and clip the MSE, try the fitted-curve heuristic; otherwise
intersect the fitted curve with the y = 50 line (the call site uses the
default `intersect=50`, not `threshold`) and report `1 / x_crossing`,
recast when out of the tested range.  `xs` is the log-spaced interpolation
grid `np.logspace(np.log10(x_min), np.log10(x_max), 10000)`. -/
def calc_model_results (obs : List ObsN) (xs : List ℚ) (fit : FitOutcome)
    (t w : ℚ) : Except PdErr ModelResults :=
  let df := sortByDil (dropna obs)
  let x := df.map Prod.fst
  let y := df.map Prod.snd
  match calc_heuristics_dilutions df t w with
  | .error e => .error e
  | .ok (some hv) => .ok ⟨"heuristic", (hv : ℚ), none, none⟩
  | .ok none =>
      match fit with
      | .fitError => .ok ⟨"model fit", ((-999 : ℤ) : ℚ), none, none⟩
      | .fitted fs =>
          match model_mse fs.yHat (y.map some) with
          | .error e => .error e
          | .ok mseRaw =>
              let mse := clipMse mseRaw
              match calc_heuristics_curve xs fs.yFitted t w with
              | .error e => .error e
              | .ok (some cv) =>
                  .ok ⟨"model fit", (cv : ℚ), some fs.params, some mse⟩
              | .ok none =>
                  let its := intersect_between_curves xs fs.yFitted 50
                  if its.error then
                    .ok ⟨"model fit", ((-999 : ℤ) : ℚ), none, some mse⟩
                  else
                    .ok ⟨"model fit",
                      recast_if_out_of_bounds_ic50 (1 / its.x.getD 0) x,
                      some fs.params, some mse⟩

/-- `failure.WellFailure`'s attributes (failure.py lines 61-93). -/
structure WellFailure where
  well : String
  plate : String
  reason : String
deriving DecidableEq

/-- The parameter names of `WellFailure.__init__(self, well, plate, reason)`
(failure.py line 76). -/
def wellFailureInitParams : List String := ["well", "plate", "reason"]

/-- First value bound to keyword `k` in a keyword-argument list. -/
def lookupKw (kwargs : List (String × String)) (k : String) : Option String :=
  (kwargs.find? (fun kv => kv.1 == k)).map Prod.snd

/-- Python keyword binding for `WellFailure.__init__`: a keyword outside the
parameter list raises `TypeError` ("unexpected keyword argument"), as does
leaving a required parameter unbound. -/
def wellFailureInit (kwargs : List (String × String)) :
    Except PdErr WellFailure :=
  if kwargs.any (fun kv => ¬ wellFailureInitParams.contains kv.1) then
    .error .typeError
  else
    match lookupKw kwargs "well", lookupKw kwargs "plate",
        lookupKw kwargs "reason" with
    | some w, some p, some r => .ok ⟨w, p, r⟩
    | _, _, _ => .error .typeError

/-- `Sample.check_for_model_fit_failure` (sample.py lines 172-191): when the
classification is "failed to fit model" (or the raw code -999), construct
`failure.WellFailure(plate="DILUTION SERIES", well=self.sample_name,
failure_reason="failed to fit model to data points")` — with the keyword
`failure_reason`, exactly as the source spells it. -/
def check_for_model_fit_failure (sample_name : String) (ic50 : ℚ)
    (ic50_pretty : String) : Except PdErr (Option WellFailure) :=
  if ic50_pretty = "failed to fit model" ∨ ic50 = -999 then
    (wellFailureInit
      [("plate", "DILUTION SERIES"), ("well", sample_name),
       ("failure_reason", "failed to fit model to data points")]).map some
  else .ok none

noncomputable section

/-- `stats.dr_4` (stats.py lines 58-79): the 4-parameter dose response curve
`(bottom - top) / (1 + (x / ec50) ^ hill_slope)`, over the reals with real
exponentiation. -/
noncomputable def dr_4 (x top bottom ec50 hill_slope : ℝ) : ℝ :=
  (bottom - top) / (1 + (x / ec50) ^ hill_slope)

/-- `stats.find_y_intercept` (stats.py lines 120-130):
`ec50 * (((bottom - top) / (y - top)) - 1) ^ (1 / hillslope)`. -/
noncomputable def find_y_intercept (top bottom ec50 hillslope y : ℝ) : ℝ :=
  ec50 * (((bottom - top) / (y - top)) - 1) ^ (1 / hillslope)

end

/-- Number of entries of the averaged series carrying a given level key
(the multiplicity of the label in the pandas index). -/
def countKey (avg : List DilLevel) (k : ℤ) : ℕ :=
  (avg.filter (fun l => l.key = k)).length

/-! ## General lemmas about the embedded operations -/

theorem result_to_int_mem (res : Res) :
    result_to_int res = -999 ∨ result_to_int res = -600 ∨
    result_to_int res = -400 ∨ result_to_int res = -200 := by
  cases res <;> simp [result_to_int]

theorem calc_heuristics_dilutions_ok_some (g : List Obs) (t w : ℚ) (z : ℤ)
    (h : calc_heuristics_dilutions g t w = .ok (some z)) :
    ∃ res : Res, z = result_to_int res := by
  unfold calc_heuristics_dilutions at h
  rcases ha : calcHeuristicDilutionsAvg (buildAvg g) t w with e | o
  · rw [ha] at h; simp [Except.map] at h
  · rw [ha] at h
    rcases o with _ | res
    · simp [Except.map] at h
    · refine ⟨res, ?_⟩
      simp only [Except.map, Option.map, Except.ok.injEq,
        Option.some.injEq] at h
      exact h.symm

theorem calc_heuristics_curve_ok_some (x : List ℚ) (y : List (Option ℚ))
    (t w : ℚ) (z : ℤ)
    (h : calc_heuristics_curve x y t w = .ok (some z)) :
    ∃ res : Res, z = result_to_int res := by
  unfold calc_heuristics_curve at h
  rcases hm : pyMinList y with e | m
  · rw [hm] at h; cases h
  · rw [hm] at h
    rcases m with _ | mv <;> simp only [] at h
    · rcases h0 : (if (hampel y 5 3).isEmpty then (none : Option Res)
          else some Res.failedToFit) with _ | res
      · rw [h0] at h; simp [Option.map] at h
      · rw [h0] at h
        simp only [Option.map, Except.ok.injEq, Option.some.injEq] at h
        exact ⟨res, h.symm⟩
    · by_cases hcond : t < mv ∧ mv < w
      · rw [if_pos hcond] at h
        by_cases harg : ((pyArgmin y : ℚ) > (x.length : ℚ) / 4)
        · rw [if_pos harg] at h
          simp only [Option.map, Except.ok.injEq, Option.some.injEq] at h
          exact ⟨Res.weakInhibition, h.symm⟩
        · rw [if_neg harg] at h
          simp only [Option.map, Except.ok.injEq, Option.some.injEq] at h
          exact ⟨Res.failedToFit, h.symm⟩
      · rw [if_neg hcond] at h
        rcases h0 : (if (hampel y 5 3).isEmpty then (none : Option Res)
            else some Res.failedToFit) with _ | res
        · rw [h0] at h; simp [Option.map] at h
        · rw [h0] at h
          simp only [Option.map, Except.ok.injEq, Option.some.injEq] at h
          exact ⟨res, h.symm⟩

theorem signChangeIdx_lt_length (xs : List ℚ) (curve : List (Option ℚ))
    (t : ℚ) (i : ℕ) (h : i ∈ signChangeIdx xs curve t) : i < xs.length := by
  unfold signChangeIdx at h
  have h1 := (List.mem_filter.mp h).1
  rw [List.mem_range] at h1
  have h2 : (signLine xs curve t).length ≤ xs.length := by
    unfold signLine
    rw [List.length_zipWith]
    exact min_le_left _ _
  omega

/-- Claim C4: for every sampled log-spaced axis and every curve of the same
length, `intersect_between_curves` succeeds (error flag `false`) exactly
when the sign of (target line − curve) changes exactly once along the grid;
on success it carries the crossing coordinates `(xs[i], curve[i])` at the
unique sign-change index, and with zero or two-or-more sign changes it
returns the error flag with NaN coordinates and no crossing point. -/
theorem intersect_between_curves_contract (xs : List ℚ)
    (curve : List (Option ℚ)) (t : ℚ) :
    (((intersect_between_curves xs curve t).error = false) ↔
      (signChangeIdx xs curve t).length = 1)
    ∧ (∀ i, signChangeIdx xs curve t = [i] →
        intersect_between_curves xs curve t =
          ⟨some (xs.getD i 0), curve.getD i none, false⟩)
    ∧ ((signChangeIdx xs curve t).length ≠ 1 →
        intersect_between_curves xs curve t = ⟨none, none, true⟩) := by
  rcases h : signChangeIdx xs curve t with _ | ⟨a, _ | ⟨b, l⟩⟩ <;>
    simp_all [intersect_between_curves, h]

/-- Witness for C4 at a concrete grid and curve with one sign change. -/
theorem intersect_between_curves_contract_witness :
    signChangeIdx [1, 2, 3, 4] [some 60, some 40, some 40, some 40] 50
        = [0] ∧
    intersect_between_curves [1, 2, 3, 4]
        [some 60, some 40, some 40, some 40] 50 = ⟨some 1, some 60, false⟩ := by
  have hs : signChangeIdx [1, 2, 3, 4] [some 60, some 40, some 40, some 40] 50
      = [0] := by
    norm_num [signChangeIdx, signLine, signQ, diffNonzero, List.filter,
      List.zipWith, List.range_succ]
  exact ⟨hs,
    (intersect_between_curves_contract [1, 2, 3, 4]
      [some 60, some 40, some 40, some 40] 50).2.1 0 hs⟩

theorem intersect_x_pos (xs : List ℚ) (curve : List (Option ℚ)) (t : ℚ)
    (hxs : ∀ v ∈ xs, 0 < v)
    (he : (intersect_between_curves xs curve t).error = false) :
    0 < (intersect_between_curves xs curve t).x.getD 0 := by
  rcases h : signChangeIdx xs curve t with _ | ⟨a, _ | ⟨b, l⟩⟩
  · unfold intersect_between_curves at he ⊢
    rw [h] at he; simp at he
  · unfold intersect_between_curves at he ⊢
    rw [h]
    have hmem : a ∈ signChangeIdx xs curve t := by
      rw [h]; exact List.mem_singleton.mpr rfl
    have ha := signChangeIdx_lt_length xs curve t a hmem
    simp only [Option.getD_some]
    rw [List.getD_eq_getElem xs 0 ha]
    exact hxs _ (List.getElem_mem _)
  · unfold intersect_between_curves at he ⊢
    rw [h] at he; simp at he

theorem recast_cases (q : ℚ) (x : List ℚ) :
    recast_if_out_of_bounds_ic50 q x = q ∨
    recast_if_out_of_bounds_ic50 q x = -400 ∨
    recast_if_out_of_bounds_ic50 q x = -200 := by
  simp only [recast_if_out_of_bounds_ic50]
  by_cases h1 : q < 1 / listMaxQ x
  · rw [if_pos h1]
    by_cases h2 : ((-400 : ℤ) : ℚ) > 1 / listMinQ x
    · rw [if_pos h2]; right; right; norm_num
    · rw [if_neg h2]; right; left; norm_num
  · rw [if_neg h1]
    by_cases h2 : q > 1 / listMinQ x
    · rw [if_pos h2]; right; right; norm_num
    · rw [if_neg h2]; left; rfl

theorem result_to_int_cast_mem (res : Res) :
    ((result_to_int res : ℤ) : ℚ) = -999 ∨ ((result_to_int res : ℤ) : ℚ) = -600 ∨
    ((result_to_int res : ℤ) : ℚ) = -400 ∨ ((result_to_int res : ℤ) : ℚ) = -200 := by
  cases res <;> norm_num [result_to_int]

/-- Claim C1: whenever `calc_model_results` returns a `ModelResults` value
(for any input series, any interpolation grid of positive sample points,
and any outcome of the external curve-fit), its `result` field is either
strictly positive (an IC50 fold-dilution) or exactly one of the sentinel
codes -999, -600, -400, -200; no other non-positive value is ever
returned. -/
theorem calc_model_results_sentinel (obs : List ObsN) (xs : List ℚ)
    (fit : FitOutcome) (t w : ℚ) (r : ModelResults)
    (hxs : ∀ v ∈ xs, 0 < v)
    (hres : calc_model_results obs xs fit t w = .ok r) :
    0 < r.result ∨ r.result = -999 ∨ r.result = -600 ∨
    r.result = -400 ∨ r.result = -200 := by
  simp only [calc_model_results] at hres
  rcases hh : calc_heuristics_dilutions (sortByDil (dropna obs)) t w
    with e | (_ | hv)
  · simp only [hh] at hres
    exact Except.noConfusion hres
  · simp only [hh] at hres
    rcases fit with _ | fs
    · simp only [] at hres
      cases hres
      right; left; norm_num
    · simp only [] at hres
      rcases hm : model_mse fs.yHat
          (List.map some (List.map Prod.snd (sortByDil (dropna obs))))
        with e | mseRaw
      · simp only [hm] at hres
        exact Except.noConfusion hres
      · simp only [hm] at hres
        rcases hc : calc_heuristics_curve xs fs.yFitted t w with e | (_ | cv)
        · simp only [hc] at hres
          exact Except.noConfusion hres
        · simp only [hc] at hres
          by_cases he : (intersect_between_curves xs fs.yFitted 50).error
          · rw [if_pos he] at hres
            cases hres
            right; left; norm_num
          · rw [if_neg he] at hres
            cases hres
            have hx := intersect_x_pos xs fs.yFitted 50 hxs
              (Bool.not_eq_true _ ▸ he)
            rcases recast_cases
                (1 / (intersect_between_curves xs fs.yFitted 50).x.getD 0)
                (List.map Prod.fst (sortByDil (dropna obs))) with h | h | h
            · left
              simp only [h]
              exact one_div_pos.mpr hx
            · right; right; right; left; exact h
            · right; right; right; right; exact h
        · simp only [hc] at hres
          cases hres
          obtain ⟨res, hres'⟩ :=
            calc_heuristics_curve_ok_some xs fs.yFitted t w cv hc
          right
          subst hres'
          exact result_to_int_cast_mem res
  · simp only [hh] at hres
    cases hres
    obtain ⟨res, hres'⟩ :=
      calc_heuristics_dilutions_ok_some (sortByDil (dropna obs)) t w hv hh
    right
    subst hres'
    exact result_to_int_cast_mem res

/-- Witness for C1 at a one-row series resolved by the raw-data heuristic. -/
theorem calc_model_results_sentinel_witness :
    (∀ v ∈ ([1] : List ℚ), 0 < v) ∧
    (0 < (ModelResults.mk "heuristic" (-600) none none).result ∨
      (ModelResults.mk "heuristic" (-600) none none).result = -999 ∨
      (ModelResults.mk "heuristic" (-600) none none).result = -600 ∨
      (ModelResults.mk "heuristic" (-600) none none).result = -400 ∨
      (ModelResults.mk "heuristic" (-600) none none).result = -200) := by
  have h1 : ∀ v ∈ ([1] : List ℚ), 0 < v := by norm_num
  have h2 : calc_model_results [((1 : ℚ) / 40, some 70)] [1] .fitError 50 60
      = .ok ⟨"heuristic", -600, none, none⟩ := by
    norm_num [calc_model_results, dropna, sortByDil, insertByDil, List.foldr,
      List.filterMap, calc_heuristics_dilutions, calcHeuristicDilutionsAvg,
      buildAvg, dilutionLevels, dedupQ, dedupAux, sortQasc, insertQ, levelMean,
      dilKey, truncQ, pyRound10, DILUTION_1, DILUTION_2, DILUTION_3,
      DILUTION_4, lookupKey, condBoth, tryKey, fallbackStep, rule2step,
      rule3step, result_to_int, Except.map, List.filter]
  exact ⟨h1,
    calc_model_results_sentinel [((1 : ℚ) / 40, some 70)] [1] .fitError 50 60
      ⟨"heuristic", -600, none, none⟩ h1 h2⟩

theorem calcHeuristicDilutionsAvg_nil (t w : ℚ) :
    calcHeuristicDilutionsAvg [] t w = .ok (some Res.noInhibition) := rfl

/-- Claim C10: on a series that is empty after dropping missing
percentage-infected values (for example an all-NaN series),
`calc_model_results` returns the heuristic path with the "no inhibition"
code -600 — not "failed to fit model" — and `model_params` and
`mean_squared_error` both `None`: the empty average satisfies both the
vacuous "all ≤ threshold" and the vacuous "all > weak_threshold" checks,
and the final "no inhibition" rule overwrites the "failed to fit model"
results of the two KeyError fallbacks. -/
theorem calc_model_results_empty_after_dropna (obs : List ObsN) (xs : List ℚ)
    (fit : FitOutcome) (t w : ℚ) (h : dropna obs = []) :
    calc_model_results obs xs fit t w = .ok ⟨"heuristic", -600, none, none⟩ := by
  have hs : sortByDil (dropna obs) = [] := by rw [h]; rfl
  have hh : calc_heuristics_dilutions (sortByDil (dropna obs)) t w
      = .ok (some (-600)) := by
    rw [hs]
    show (calcHeuristicDilutionsAvg (buildAvg []) t w).map
      (Option.map result_to_int) = .ok (some (-600))
    rw [show buildAvg [] = [] from rfl, calcHeuristicDilutionsAvg_nil]
    rfl
  simp only [calc_model_results, hh]
  norm_num

/-- Witness for C10 at a concrete one-row all-NaN series. -/
theorem calc_model_results_empty_after_dropna_witness :
    dropna [((1 : ℚ) / 40, none)] = [] ∧
    calc_model_results [((1 : ℚ) / 40, none)] [] .fitError 50 60
      = .ok ⟨"heuristic", -600, none, none⟩ := by
  have h : dropna [((1 : ℚ) / 40, none)] = [] := rfl
  exact ⟨h, calc_model_results_empty_after_dropna _ [] .fitError 50 60 h⟩

theorem lookupKey_of_countKey_one (avg : List DilLevel) (k : ℤ)
    (h : countKey avg k = 1) :
    ∃ l, l ∈ avg ∧ l.key = k ∧ lookupKey avg k = .ok l.mean := by
  unfold countKey at h
  unfold lookupKey
  rcases hf : avg.filter (fun l => l.key = k) with _ | ⟨a, _ | ⟨b, rest⟩⟩
  · rw [hf] at h; cases h
  · refine ⟨a, ?_, ?_, by rw [hf]⟩
    · exact List.mem_of_mem_filter (hf ▸ List.mem_singleton.mpr rfl)
    · have := List.of_mem_filter (hf ▸ List.mem_singleton.mpr rfl)
      exact of_decide_eq_true this
  · rw [hf] at h; cases h

theorem lookupKey_of_countKey_le_one (avg : List DilLevel) (k : ℤ)
    (h : countKey avg k ≤ 1) :
    lookupKey avg k = .error .keyError ∨
    ∃ l, l ∈ avg ∧ l.key = k ∧ lookupKey avg k = .ok l.mean := by
  unfold countKey at h
  rcases hf : avg.filter (fun l => l.key = k) with _ | ⟨a, _ | ⟨b, rest⟩⟩
  · left; unfold lookupKey; rw [hf]
  · right
    refine ⟨a, ?_, ?_, by unfold lookupKey; rw [hf]⟩
    · exact List.mem_of_mem_filter (hf ▸ List.mem_singleton.mpr rfl)
    · have := List.of_mem_filter (hf ▸ List.mem_singleton.mpr rfl)
      exact of_decide_eq_true this
  · rw [hf] at h; simp at h

theorem condBoth_of_ok_ok (avg : List DilLevel) (k₁ k₂ : ℤ) (f g : ℚ → Bool)
    (v₁ v₂ : ℚ) (h₁ : lookupKey avg k₁ = .ok v₁)
    (h₂ : lookupKey avg k₂ = .ok v₂) :
    condBoth avg k₁ k₂ f g = .ok (if f v₁ then g v₂ else false) := by
  unfold condBoth
  simp only [h₁]
  by_cases hf : f v₁
  · simp [hf, h₂]
  · simp [hf]

theorem condBoth_of_ok_false (avg : List DilLevel) (k₁ k₂ : ℤ)
    (f g : ℚ → Bool) (v₁ : ℚ) (h₁ : lookupKey avg k₁ = .ok v₁)
    (hf : f v₁ = false) :
    condBoth avg k₁ k₂ f g = .ok false := by
  unfold condBoth
  simp only [h₁]
  simp [hf]

theorem condBoth_of_keyError (avg : List DilLevel) (k₁ k₂ : ℤ)
    (f g : ℚ → Bool) (h₁ : lookupKey avg k₁ = .error .keyError) :
    condBoth avg k₁ k₂ f g = .error .keyError := by
  unfold condBoth
  simp only [h₁]

theorem condBoth_ok_or_keyError (avg : List DilLevel) (k₁ k₂ : ℤ)
    (f g : ℚ → Bool) (havg : ∀ k, countKey avg k ≤ 1) :
    (condBoth avg k₁ k₂ f g = .error .keyError) ∨
    ∃ b, condBoth avg k₁ k₂ f g = .ok b := by
  rcases lookupKey_of_countKey_le_one avg k₁ (havg k₁) with h₁ | ⟨l₁, _, _, h₁⟩
  · left; exact condBoth_of_keyError avg k₁ k₂ f g h₁
  · by_cases hf : f l₁.mean
    · rcases lookupKey_of_countKey_le_one avg k₂ (havg k₂)
        with h₂ | ⟨l₂, _, _, h₂⟩
      · left
        unfold condBoth
        simp [h₁, hf, h₂]
      · right
        exact ⟨_, condBoth_of_ok_ok avg k₁ k₂ f g _ _ h₁ h₂⟩
    · right
      exact ⟨false, condBoth_of_ok_false avg k₁ k₂ f g _ h₁ (by simp [hf])⟩

theorem fallbackStep_ok (avg : List DilLevel) (k₁ k₂ k₃ k₄ : ℤ)
    (f g : ℚ → Bool) (res : Res) (r : Option Res)
    (havg : ∀ k, countKey avg k ≤ 1) :
    ∃ r', fallbackStep avg k₁ k₂ k₃ k₄ f g res r = .ok r' := by
  unfold fallbackStep
  rcases condBoth_ok_or_keyError avg k₁ k₂ f g havg with h₁ | ⟨b₁, h₁⟩
  · rw [h₁]
    rcases condBoth_ok_or_keyError avg k₃ k₄ f g havg with h₂ | ⟨b₂, h₂⟩
    · rw [h₂]
      exact ⟨some Res.failedToFit, rfl⟩
    · rw [h₂]
      exact ⟨_, rfl⟩
  · rw [h₁]
    exact ⟨_, rfl⟩

/-- Claim C3 (amended): for every dilution series in which every level's
replicate-averaged percentage infected is strictly above the weak threshold
and in which no two distinct dilution levels collide onto the same rounded
reciprocal-dilution key, the raw-data heuristic returns the "no inhibition"
code -600; the check runs last and overrides any earlier classification,
including the "failed to fit model" fallbacks taken when levels are
missing.  (Without the no-collision condition the duplicated pandas index
label makes a lookup return a `Series`, and the heuristic raises instead of
returning — see the counterexample.) -/
theorem calc_heuristics_dilutions_no_inhibition (g : List Obs) (t w : ℚ)
    (hkeys : ∀ k, countKey (buildAvg g) k ≤ 1)
    (hgt : ∀ l ∈ buildAvg g, w < l.mean) :
    calc_heuristics_dilutions g t w = .ok (some (-600)) := by
  obtain ⟨r₁, h₁⟩ :
      ∃ r', rule2step (buildAvg g) t
        (if (buildAvg g).all (fun l => decide (l.mean ≤ t)) then
          some Res.completeInhibition
        else none) = .ok r' :=
    fallbackStep_ok _ _ _ _ _ _ _ _ _ hkeys
  obtain ⟨r₂, h₂⟩ : ∃ r', rule3step (buildAvg g) t w r₁ = .ok r' :=
    fallbackStep_ok _ _ _ _ _ _ _ _ _ hkeys
  have hall : (buildAvg g).all (fun l => decide (w < l.mean)) = true :=
    List.all_eq_true.mpr (fun l hl => decide_eq_true (hgt l hl))
  unfold calc_heuristics_dilutions
  simp only [calcHeuristicDilutionsAvg, h₁, h₂, hall, if_true]
  rfl

/-- Counterexample to C3 as stated: the two distinct dilutions 1/2560 and
1/2559 both round to the reciprocal-dilution key 2560; every level mean is
above the weak threshold 60, yet the heuristic propagates the pandas
ambiguous-truth-value error raised by the duplicated-label lookup instead
of returning the "no inhibition" code. -/
theorem calc_heuristics_dilutions_duplicate_key_counterexample :
    (∀ l ∈ buildAvg [((1 : ℚ) / 2560, 70), ((1 : ℚ) / 2559, 80)],
        (60 : ℚ) < l.mean) ∧
    calc_heuristics_dilutions [((1 : ℚ) / 2560, 70), ((1 : ℚ) / 2559, 80)]
        50 60 = .error .ambiguousTruth ∧
    calc_heuristics_dilutions [((1 : ℚ) / 2560, 70), ((1 : ℚ) / 2559, 80)]
        50 60 ≠ .ok (some (-600)) := by
  have hc : calc_heuristics_dilutions
      [((1 : ℚ) / 2560, 70), ((1 : ℚ) / 2559, 80)] 50 60
      = .error .ambiguousTruth := by
    norm_num [calc_heuristics_dilutions, calcHeuristicDilutionsAvg, buildAvg,
      dilutionLevels, dedupQ, dedupAux, sortQasc, insertQ, levelMean, dilKey,
      truncQ, pyRound10, DILUTION_1, DILUTION_2, DILUTION_3, DILUTION_4,
      lookupKey, condBoth, tryKey, fallbackStep, rule2step, rule3step,
      result_to_int, Except.map, List.filter]
  refine ⟨?_, hc, by rw [hc]; simp⟩
  have hb : buildAvg [((1 : ℚ) / 2560, 70), ((1 : ℚ) / 2559, 80)]
      = [⟨2560, 70⟩, ⟨2560, 80⟩] := by
    norm_num [buildAvg, dilutionLevels, dedupQ, dedupAux, sortQasc, insertQ,
      levelMean, dilKey, truncQ, pyRound10, List.filter]
  intro l hl
  rw [hb] at hl
  simp only [List.mem_cons, List.not_mem_nil, or_false] at hl
  rcases hl with rfl | rfl <;> norm_num

/-- Witness for C3 (amended) at a one-level series above the weak
threshold. -/
theorem calc_heuristics_dilutions_no_inhibition_witness :
    (∀ k, countKey (buildAvg [((1 : ℚ) / 40, 70)]) k ≤ 1) ∧
    (∀ l ∈ buildAvg [((1 : ℚ) / 40, 70)], (60 : ℚ) < l.mean) ∧
    calc_heuristics_dilutions [((1 : ℚ) / 40, 70)] 50 60
      = .ok (some (-600)) := by
  have hb : buildAvg [((1 : ℚ) / 40, 70)] = [⟨40, 70⟩] := by
    norm_num [buildAvg, dilutionLevels, dedupQ, dedupAux, sortQasc, insertQ,
      levelMean, dilKey, truncQ, pyRound10, List.filter]
  have hk : ∀ k, countKey (buildAvg [((1 : ℚ) / 40, 70)]) k ≤ 1 := by
    intro k
    exact le_trans (List.length_filter_le _ _) (by rw [hb]; rfl)
  have hg : ∀ l ∈ buildAvg [((1 : ℚ) / 40, 70)], (60 : ℚ) < l.mean := by
    intro l hl
    rw [hb] at hl
    simp only [List.mem_cons, List.not_mem_nil, or_false] at hl
    rw [hl]
    norm_num
  exact ⟨hk, hg, calc_heuristics_dilutions_no_inhibition _ 50 60 hk hg⟩

/-- Claim C2 (amended): for every dilution series in which every level's
replicate-averaged percentage infected is ≤ the threshold, and which has
exactly one averaged entry at each of the standard level keys `DILUTION_4`,
`DILUTION_3` and `DILUTION_1` (in particular, no levels missing at those
keys and no key collisions), the raw-data heuristic returns the
"complete inhibition" code -200.  (With `DILUTION_3` missing the KeyError
fallback chain returns "failed to fit model" instead — see the
counterexample.) -/
theorem calc_heuristics_dilutions_complete_inhibition (g : List Obs)
    (t w : ℚ) (htw : t ≤ w)
    (h4 : countKey (buildAvg g) DILUTION_4 = 1)
    (h3 : countKey (buildAvg g) DILUTION_3 = 1)
    (h1 : countKey (buildAvg g) DILUTION_1 = 1)
    (hle : ∀ l ∈ buildAvg g, l.mean ≤ t) :
    calc_heuristics_dilutions g t w = .ok (some (-200)) := by
  obtain ⟨l₄, hm₄, _, hk₄⟩ := lookupKey_of_countKey_one _ _ h4
  obtain ⟨l₃, hm₃, _, hk₃⟩ := lookupKey_of_countKey_one _ _ h3
  obtain ⟨l₁, hm₁, _, hk₁⟩ := lookupKey_of_countKey_one _ _ h1
  have hr₂ : rule2step (buildAvg g) t
      (if (buildAvg g).all (fun l => decide (l.mean ≤ t)) then
        some Res.completeInhibition
      else none) = .ok (some Res.completeInhibition) := by
    unfold rule2step fallbackStep
    rw [condBoth_of_ok_ok _ _ _ _ _ _ _ hk₄ hk₃]
    simp only [decide_eq_true (hle l₄ hm₄), decide_eq_true (hle l₃ hm₃),
      if_true]
    rfl
  have hr₃ : rule3step (buildAvg g) t w (some Res.completeInhibition)
      = .ok (some Res.completeInhibition) := by
    unfold rule3step fallbackStep
    rw [condBoth_of_ok_false _ _ _ _ _ _ hk₁
      (by simp only [decide_eq_false_iff_not, not_lt]; exact hle l₁ hm₁)]
    rfl
  have hall : (buildAvg g).all (fun l => decide (w < l.mean)) = false := by
    by_contra hcon
    rw [Bool.not_eq_false] at hcon
    have := List.all_eq_true.mp hcon l₄ hm₄
    rw [decide_eq_true_iff] at this
    have h₄t := hle l₄ hm₄
    linarith
  unfold calc_heuristics_dilutions
  simp only [calcHeuristicDilutionsAvg, hr₂, hr₃, hall]
  rfl

/-- Counterexample to C2 as stated: a series with every level mean ≤ 50 but
with the `DILUTION_3` (1:640) level missing is classified
"failed to fit model" (-999), not "complete inhibition" (-200): both
KeyError fallbacks of rule 2 fire and overwrite the rule-1 classification,
so the claim's "including series with missing dilution levels" fails. -/
theorem calc_heuristics_dilutions_missing_level_counterexample :
    (∀ l ∈ buildAvg [((1 : ℚ) / 2560, 10), ((1 : ℚ) / 160, 10),
        ((1 : ℚ) / 40, 10)], l.mean ≤ 50) ∧
    calc_heuristics_dilutions
        [((1 : ℚ) / 2560, 10), ((1 : ℚ) / 160, 10), ((1 : ℚ) / 40, 10)] 50 60
      = .ok (some (-999)) ∧
    calc_heuristics_dilutions
        [((1 : ℚ) / 2560, 10), ((1 : ℚ) / 160, 10), ((1 : ℚ) / 40, 10)] 50 60
      ≠ .ok (some (-200)) := by
  have hc : calc_heuristics_dilutions
      [((1 : ℚ) / 2560, 10), ((1 : ℚ) / 160, 10), ((1 : ℚ) / 40, 10)] 50 60
      = .ok (some (-999)) := by
    norm_num [calc_heuristics_dilutions, calcHeuristicDilutionsAvg, buildAvg,
      dilutionLevels, dedupQ, dedupAux, sortQasc, insertQ, levelMean, dilKey,
      truncQ, pyRound10, DILUTION_1, DILUTION_2, DILUTION_3, DILUTION_4,
      lookupKey, condBoth, tryKey, fallbackStep, rule2step, rule3step,
      result_to_int, Except.map, List.filter]
  have hb : buildAvg [((1 : ℚ) / 2560, 10), ((1 : ℚ) / 160, 10),
      ((1 : ℚ) / 40, 10)] = [⟨2560, 10⟩, ⟨160, 10⟩, ⟨40, 10⟩] := by
    norm_num [buildAvg, dilutionLevels, dedupQ, dedupAux, sortQasc, insertQ,
      levelMean, dilKey, truncQ, pyRound10, List.filter]
  refine ⟨?_, hc, by rw [hc]; simp⟩
  intro l hl
  rw [hb] at hl
  simp only [List.mem_cons, List.not_mem_nil, or_false] at hl
  rcases hl with rfl | rfl | rfl <;> norm_num

/-- Witness for C2 (amended) at a full four-level series with all means
below the threshold. -/
theorem calc_heuristics_dilutions_complete_inhibition_witness :
    countKey (buildAvg [((1 : ℚ) / 2560, 10), ((1 : ℚ) / 640, 10),
        ((1 : ℚ) / 160, 10), ((1 : ℚ) / 40, 10)]) DILUTION_4 = 1 ∧
    countKey (buildAvg [((1 : ℚ) / 2560, 10), ((1 : ℚ) / 640, 10),
        ((1 : ℚ) / 160, 10), ((1 : ℚ) / 40, 10)]) DILUTION_3 = 1 ∧
    countKey (buildAvg [((1 : ℚ) / 2560, 10), ((1 : ℚ) / 640, 10),
        ((1 : ℚ) / 160, 10), ((1 : ℚ) / 40, 10)]) DILUTION_1 = 1 ∧
    calc_heuristics_dilutions [((1 : ℚ) / 2560, 10), ((1 : ℚ) / 640, 10),
        ((1 : ℚ) / 160, 10), ((1 : ℚ) / 40, 10)] 50 60 = .ok (some (-200)) := by
  have hb : buildAvg [((1 : ℚ) / 2560, 10), ((1 : ℚ) / 640, 10),
      ((1 : ℚ) / 160, 10), ((1 : ℚ) / 40, 10)]
      = [⟨2560, 10⟩, ⟨640, 10⟩, ⟨160, 10⟩, ⟨40, 10⟩] := by
    norm_num [buildAvg, dilutionLevels, dedupQ, dedupAux, sortQasc, insertQ,
      levelMean, dilKey, truncQ, pyRound10, List.filter]
  have h4 : countKey (buildAvg [((1 : ℚ) / 2560, 10), ((1 : ℚ) / 640, 10),
      ((1 : ℚ) / 160, 10), ((1 : ℚ) / 40, 10)]) DILUTION_4 = 1 := by
    rw [countKey, hb]
    norm_num [DILUTION_4, List.filter]
  have h3 : countKey (buildAvg [((1 : ℚ) / 2560, 10), ((1 : ℚ) / 640, 10),
      ((1 : ℚ) / 160, 10), ((1 : ℚ) / 40, 10)]) DILUTION_3 = 1 := by
    rw [countKey, hb]
    norm_num [DILUTION_3, List.filter]
  have h1 : countKey (buildAvg [((1 : ℚ) / 2560, 10), ((1 : ℚ) / 640, 10),
      ((1 : ℚ) / 160, 10), ((1 : ℚ) / 40, 10)]) DILUTION_1 = 1 := by
    rw [countKey, hb]
    norm_num [DILUTION_1, List.filter]
  have hle : ∀ l ∈ buildAvg [((1 : ℚ) / 2560, 10), ((1 : ℚ) / 640, 10),
      ((1 : ℚ) / 160, 10), ((1 : ℚ) / 40, 10)], l.mean ≤ 50 := by
    intro l hl
    rw [hb] at hl
    simp only [List.mem_cons, List.not_mem_nil, or_false] at hl
    rcases hl with rfl | rfl | rfl | rfl <;> norm_num
  exact ⟨h4, h3, h1,
    calc_heuristics_dilutions_complete_inhibition _ 50 60 (by norm_num)
      h4 h3 h1 hle⟩

theorem isEmpty_false_of_ne_nil {α : Type} {l : List α} (h : l ≠ []) :
    l.isEmpty = false := by
  cases l
  · exact absurd rfl h
  · rfl

/-- Claim C6 (amended): whenever the Hampel filter (window half-width 5)
reports at least one outlier on the fitted curve, `calc_heuristics_curve`
returns the "failed to fit model" code -999 — unless the curve's minimum
lies strictly between the thresholds, in which case the subsequent
minimum-position rule (which has no `else` guarding it) overrides the
classification: "weak inhibition" (-400) when the index of the minimum
exceeds a quarter of the sampled length, "failed to fit model" otherwise. -/
theorem calc_heuristics_curve_outliers_override (x : List ℚ)
    (y : List (Option ℚ)) (t w : ℚ) (hy : y ≠ [])
    (hout : hampel y 5 3 ≠ []) :
    calc_heuristics_curve x y t w = .ok (some (
      match pyMinVal y with
      | some m =>
          if t < m ∧ m < w then
            (if ((pyArgmin y : ℚ) > (x.length : ℚ) / 4) then (-400 : ℤ)
            else -999)
          else -999
      | none => -999)) := by
  have hmin : pyMinList y = .ok (pyMinVal y) := by
    unfold pyMinList
    rw [if_neg (by simp [isEmpty_false_of_ne_nil hy])]
  have hempty : (hampel y 5 3).isEmpty = false := isEmpty_false_of_ne_nil hout
  unfold calc_heuristics_curve
  simp only [hmin, hempty, Bool.false_eq_true, if_false]
  rcases hm : pyMinVal y with _ | m
  · simp [result_to_int]
  · by_cases hc : t < m ∧ m < w
    · simp only [hc, if_true]
      by_cases harg : ((pyArgmin y : ℚ) > (x.length : ℚ) / 4)
      · simp [harg, result_to_int]
      · simp [harg, result_to_int]
    · simp [hc, result_to_int]

/-- Counterexample to C6 as stated: a curve with a Hampel outlier (the 200
spike) whose minimum 54 lies strictly between the thresholds and whose
argmin exceeds a quarter of the length is classified "weak inhibition"
(-400), not "failed to fit model" (-999): the minimum rule overrides the
outlier rule. -/
theorem calc_heuristics_curve_outlier_counterexample :
    hampel ([59, 58, 57, 56, 55, 54, 200, 54, 55, 56, 57, 58, 59].map
      (fun q => some (q : ℚ))) 5 3 ≠ [] ∧
    calc_heuristics_curve [1, 2, 3, 4, 5, 6, 7, 8, 9, 10, 11, 12, 13]
      ([59, 58, 57, 56, 55, 54, 200, 54, 55, 56, 57, 58, 59].map
        (fun q => some (q : ℚ))) 50 60 = .ok (some (-400)) ∧
    calc_heuristics_curve [1, 2, 3, 4, 5, 6, 7, 8, 9, 10, 11, 12, 13]
      ([59, 58, 57, 56, 55, 54, 200, 54, 55, 56, 57, 58, 59].map
        (fun q => some (q : ℚ))) 50 60 ≠ .ok (some (-999)) := by
  have hh : hampel ([59, 58, 57, 56, 55, 54, 200, 54, 55, 56, 57, 58, 59].map
      (fun q => some (q : ℚ))) 5 3 = [6] := by
    norm_num [hampel, hampelFlag, windowAt, nanVals, medianQ, sortQasc,
      insertQ, List.range', List.filter, List.foldl, List.filterMap]
  have hc : calc_heuristics_curve [1, 2, 3, 4, 5, 6, 7, 8, 9, 10, 11, 12, 13]
      ([59, 58, 57, 56, 55, 54, 200, 54, 55, 56, 57, 58, 59].map
        (fun q => some (q : ℚ))) 50 60 = .ok (some (-400)) := by
    norm_num [calc_heuristics_curve, hampel, hampelFlag, windowAt, nanVals,
      medianQ, sortQasc, insertQ, List.range', List.filter, List.foldl,
      List.filterMap, pyMinList, pyMinVal, minStep, pyArgmin, argminVals,
      result_to_int, List.findIdx?]
  exact ⟨by rw [hh]; simp, hc, by rw [hc]; simp⟩

/-- Witness for C6 (amended), applying it at the counterexample curve. -/
theorem calc_heuristics_curve_outliers_override_witness :
    calc_heuristics_curve [1, 2, 3, 4, 5, 6, 7, 8, 9, 10, 11, 12, 13]
      ([59, 58, 57, 56, 55, 54, 200, 54, 55, 56, 57, 58, 59].map
        (fun q => some (q : ℚ))) 50 60 = .ok (some (
      match pyMinVal ([59, 58, 57, 56, 55, 54, 200, 54, 55, 56, 57, 58,
          59].map (fun q => some (q : ℚ))) with
      | some m =>
          if (50 : ℚ) < m ∧ m < 60 then
            (if ((pyArgmin ([59, 58, 57, 56, 55, 54, 200, 54, 55, 56, 57, 58,
                59].map (fun q => some (q : ℚ))) : ℚ)
                > (([1, 2, 3, 4, 5, 6, 7, 8, 9, 10, 11, 12,
                  13] : List ℚ).length : ℚ) / 4) then (-400 : ℤ)
            else -999)
          else -999
      | none => -999)) := by
  refine calc_heuristics_curve_outliers_override _ _ 50 60 (by simp) ?_
  have hh : hampel ([59, 58, 57, 56, 55, 54, 200, 54, 55, 56, 57, 58, 59].map
      (fun q => some (q : ℚ))) 5 3 = [6] := by
    norm_num [hampel, hampelFlag, windowAt, nanVals, medianQ, sortQasc,
      insertQ, List.range', List.filter, List.foldl, List.filterMap]
  rw [hh]
  simp

/-- Claim C7 (amended): for every fitted curve with no Hampel outliers whose
minimum lies strictly between threshold and weak_threshold,
`calc_heuristics_curve` returns "weak inhibition" (-400) exactly when the
index of the minimum is strictly greater than a quarter of the sampled
length — i.e. when it falls anywhere in the upper three-quarters of the
index range, the least-dilute (strong-sample) side — and
"failed to fit model" (-999) when the index lies within the first quarter. -/
theorem calc_heuristics_curve_weak_min_position (x : List ℚ)
    (y : List (Option ℚ)) (t w m : ℚ) (hy : y ≠ [])
    (hout : hampel y 5 3 = []) (hmv : pyMinVal y = some m)
    (h1 : t < m) (h2 : m < w) :
    calc_heuristics_curve x y t w = .ok (some (
      if ((pyArgmin y : ℚ) > (x.length : ℚ) / 4) then (-400 : ℤ)
      else -999)) := by
  have hmin : pyMinList y = .ok (pyMinVal y) := by
    unfold pyMinList
    rw [if_neg (by simp [isEmpty_false_of_ne_nil hy])]
  unfold calc_heuristics_curve
  simp only [hmin, hmv, hout]
  simp only [List.isEmpty_nil, if_true]
  rw [if_pos ⟨h1, h2⟩]
  by_cases harg : ((pyArgmin y : ℚ) > (x.length : ℚ) / 4)
  · simp [harg, result_to_int]
  · simp [harg, result_to_int]

/-- Counterexample to C7 as stated: a smooth curve with no outliers, whose
minimum 56 ∈ (50, 60) sits at index 6 of 12 — in neither the low-index
quarter (indices < 3) nor the high-index quarter (indices ≥ 9) of the
sampled range, so under either reading of "the low-concentration quarter"
the claim predicts -999 — yet the code classifies "weak inhibition" (-400),
because its actual condition is `argmin > len(x)/4`, an entire
three-quarters of the range. -/
theorem calc_heuristics_curve_quarter_counterexample :
    hampel ([(59 : ℚ), 59, 58, 58, 57, 57, 56, 57, 57, 58, 58, 59].map some)
      5 3 = [] ∧
    pyMinVal ([(59 : ℚ), 59, 58, 58, 57, 57, 56, 57, 57, 58, 58, 59].map
      some) = some 56 ∧
    ((50 : ℚ) < 56 ∧ (56 : ℚ) < 60) ∧
    pyArgmin ([(59 : ℚ), 59, 58, 58, 57, 57, 56, 57, 57, 58, 58, 59].map
      some) = 6 ∧
    ¬ ((6 : ℚ) < (12 : ℚ) / 4) ∧ ¬ ((3 * (12 : ℚ) / 4) ≤ (6 : ℚ)) ∧
    calc_heuristics_curve [1, 2, 3, 4, 5, 6, 7, 8, 9, 10, 11, 12]
      ([(59 : ℚ), 59, 58, 58, 57, 57, 56, 57, 57, 58, 58, 59].map some)
      50 60 = .ok (some (-400)) := by
  refine ⟨?_, ?_, by norm_num, ?_, by norm_num, by norm_num, ?_⟩
  · norm_num [hampel, hampelFlag, windowAt, nanVals, medianQ, sortQasc,
      insertQ, List.range', List.filter, List.foldl, List.filterMap]
  · norm_num [pyMinVal, minStep, List.foldl]
  · norm_num [pyArgmin, argminVals, List.foldl, List.filterMap, List.findIdx?]
  · norm_num [calc_heuristics_curve, hampel, hampelFlag, windowAt, nanVals,
      medianQ, sortQasc, insertQ, List.range', List.filter, List.foldl,
      List.filterMap, pyMinList, pyMinVal, minStep, pyArgmin, argminVals,
      result_to_int, List.findIdx?]

/-- Witness for C7 (amended), applying it at the counterexample curve. -/
theorem calc_heuristics_curve_weak_min_position_witness :
    calc_heuristics_curve [1, 2, 3, 4, 5, 6, 7, 8, 9, 10, 11, 12]
      ([(59 : ℚ), 59, 58, 58, 57, 57, 56, 57, 57, 58, 58, 59].map some)
      50 60 = .ok (some (
      if ((pyArgmin ([(59 : ℚ), 59, 58, 58, 57, 57, 56, 57, 57, 58, 58,
          59].map some) : ℚ)
          > (([1, 2, 3, 4, 5, 6, 7, 8, 9, 10, 11, 12] : List ℚ).length : ℚ)
            / 4) then (-400 : ℤ)
      else -999)) := by
  refine calc_heuristics_curve_weak_min_position _ _ 50 60 56 (by simp)
    ?_ ?_ (by norm_num) (by norm_num)
  · norm_num [hampel, hampelFlag, windowAt, nanVals, medianQ, sortQasc,
      insertQ, List.range', List.filter, List.foldl, List.filterMap]
  · norm_num [pyMinVal, minStep, List.foldl]

/-- Claim C8 (amended): `hampel` returns exactly the indices `i` with
`k + 1 ≤ i < n - k` — not `k ≤ i`: the source loop `range(k + 1, n - k)`
never evaluates the boundary index `i = k` — whose centred width-`2k+1`
window is not all-NaN and which satisfy
`|x[i] - x0| > t0 * 1.4826 * median(|window - x0|)` for the NaN-ignoring
window median `x0` (a NaN `x[i]` is never flagged, its comparison being
`False`). -/
theorem hampel_mem_iff (x : List (Option ℚ)) (k : ℕ) (t0 : ℚ) (i : ℕ) :
    i ∈ hampel x k t0 ↔
      (k + 1 ≤ i ∧ i < x.length - k ∧
        nanVals (windowAt x i k) ≠ [] ∧
        ∃ xi, x.getD i none = some xi ∧
          t0 * ((14826 : ℚ) / 10000 *
            medianQ ((nanVals (windowAt x i k)).map
              (fun v => |v - medianQ (nanVals (windowAt x i k))|)))
          < |xi - medianQ (nanVals (windowAt x i k))|) := by
  unfold hampel
  rw [List.mem_filter, List.mem_range'_1]
  rcases hvs : nanVals (windowAt x i k) with _ | ⟨a, rest⟩
  · simp only [hampelFlag, hvs, List.isEmpty_nil, if_true]
    simp
  · rcases hg : x.getD i none with _ | xi
    · simp only [hampelFlag, hvs, hg]
      simp
    · simp only [hampelFlag, hvs, hg, List.isEmpty_cons, Bool.false_eq_true,
        if_false, decide_eq_true_iff]
      constructor
      · rintro ⟨⟨hlo, hhi⟩, hcmp⟩
        exact ⟨hlo, by omega, by simp, xi, rfl, hcmp⟩
      · rintro ⟨hlo, hhi, _, xi', hxi', hcmp⟩
        rw [Option.some.injEq] at hxi'
        subst hxi'
        exact ⟨⟨hlo, by omega⟩, hcmp⟩

/-- Counterexample to C8 as stated: on `[0, 100, 0, 0]` with `k = 1`,
`t0 = 3`, the boundary index `i = k = 1` satisfies the outlier criterion
(window median 0, MAD 0, |100 - 0| > 0), and the spec-worded filter over
`[k, n-k)` flags it, but `hampel` — looping over `[k+1, n-k)` — returns the
empty list: index `k` is never evaluated. -/
theorem hampel_boundary_counterexample :
    hampel [some 0, some 100, some 0, some 0] 1 3 = [] ∧
    hampelSpec [some 0, some 100, some 0, some 0] 1 3 = [1] := by
  constructor
  · norm_num [hampel, hampelFlag, windowAt, nanVals, medianQ, sortQasc,
      insertQ, List.range', List.filter, List.filterMap]
  · norm_num [hampelSpec, hampelFlag, windowAt, nanVals, medianQ, sortQasc,
      insertQ, List.range', List.filter, List.filterMap]

/-- Claim C5 (amended): for all parameters with `ec50 > 0`,
`hill_slope > 0` (in particular throughout the fitting bounds) and every
target level `y` with `((bottom - top) / (y - top)) - 1 > 0`, evaluating
`dr_4` at the concentration returned by `find_y_intercept` yields exactly
`y - top` — not `y`: `find_y_intercept` is the analytic inverse of the
standard 4PL curve `top + dr_4(x)`, while `dr_4` itself omits the `+ top`
term, so the two agree only when `top = 0`. -/
theorem dr_4_find_y_intercept (top bottom ec50 h y : ℝ)
    (hec : 0 < ec50) (hh : 0 < h)
    (hB : 0 < (bottom - top) / (y - top) - 1) :
    dr_4 (find_y_intercept top bottom ec50 h y) top bottom ec50 h
      = y - top := by
  set B : ℝ := (bottom - top) / (y - top) - 1 with hBdef
  have hyt : y - top ≠ 0 := by
    intro h0
    rw [hBdef, h0, div_zero] at hB
    norm_num at hB
  have h1B : (1 : ℝ) + B ≠ 0 := by positivity
  have hfrac : (bottom - top) / (y - top) = 1 + B := by rw [hBdef]; ring
  have hbt : bottom - top ≠ 0 := by
    intro h0
    rw [h0, zero_div] at hfrac
    rw [← hfrac] at h1B
    exact h1B rfl
  have hxdiv : find_y_intercept top bottom ec50 h y / ec50
      = B ^ ((1 : ℝ) / h) := by
    unfold find_y_intercept
    rw [← hBdef]
    rw [mul_comm, mul_div_assoc, div_self (ne_of_gt hec), mul_one]
  have hpow : (B ^ ((1 : ℝ) / h)) ^ h = B := by
    rw [← Real.rpow_mul hB.le, one_div_mul_cancel (ne_of_gt hh),
      Real.rpow_one]
  unfold dr_4
  rw [hxdiv, hpow]
  rw [div_eq_iff h1B]
  rw [div_eq_iff hyt] at hfrac
  linear_combination hfrac

/-- Counterexample to C5 as stated: at the in-bounds parameters
`top = 50, bottom = 100, ec50 = 1, hill_slope = 1` and target `y = 75`
(where `((bottom - top) / (y - top)) - 1 = 1 > 0`), the round trip gives
`dr_4(find_y_intercept(...)) = 25 = y - top`, not `y = 75`. -/
theorem dr_4_find_y_intercept_counterexample :
    (0 : ℝ) < 1 ∧ (0 : ℝ) < 1 ∧
    (0 : ℝ) < ((100 : ℝ) - 50) / ((75 : ℝ) - 50) - 1 ∧
    dr_4 (find_y_intercept 50 100 1 1 75) 50 100 1 1 = 25 ∧
    dr_4 (find_y_intercept 50 100 1 1 75) 50 100 1 1 ≠ 75 := by
  have hval : dr_4 (find_y_intercept 50 100 1 1 75) 50 100 1 1 = 25 := by
    unfold dr_4 find_y_intercept
    norm_num [Real.one_rpow]
  exact ⟨by norm_num, by norm_num, by norm_num, hval, by rw [hval]; norm_num⟩

/-- Witness for C5 (amended) at the same concrete parameters. -/
theorem dr_4_find_y_intercept_witness :
    (0 : ℝ) < 1 ∧ (0 : ℝ) < 1 ∧
    (0 : ℝ) < ((100 : ℝ) - 50) / ((75 : ℝ) - 50) - 1 ∧
    dr_4 (find_y_intercept 50 100 1 1 75) 50 100 1 1 = 75 - 50 :=
  ⟨by norm_num, by norm_num, by norm_num,
    dr_4_find_y_intercept 50 100 1 1 75 (by norm_num) (by norm_num)
      (by norm_num)⟩

/-- Claim C9: the code contradicts the claim (and its own tests).  When a
sample's classification is the "failed to fit model" code -999 (so
`ic50_pretty` is the string "failed to fit model"),
`Sample.check_for_model_fit_failure` calls
`failure.WellFailure(plate=..., well=..., failure_reason=...)`, but
`WellFailure.__init__`'s parameters are `(well, plate, reason)`
(failure.py line 76): the keyword `failure_reason` is unexpected and the
required `reason` is unbound, so constructing the `Sample` raises
`TypeError` instead of completing with a well failure whose reason is
"failed to fit model to data points". -/
theorem check_for_model_fit_failure_type_error :
    int_to_result (-999) = some "failed to fit model" ∧
    check_for_model_fit_failure "A01" (-999) "failed to fit model"
      = .error .typeError ∧
    ∀ fl : WellFailure,
      check_for_model_fit_failure "A01" (-999) "failed to fit model"
        ≠ .ok (some fl) := by
  have hc : check_for_model_fit_failure "A01" (-999) "failed to fit model"
      = .error .typeError := by decide
  refine ⟨by decide, hc, ?_⟩
  intro fl hfl
  rw [hc] at hfl
  exact Except.noConfusion hfl
